import Mathlib

/-!
Verification development for the decipher-bench evaluation-and-aggregation
core.  The Python source (`src/decipher_bench/`) is shallowly embedded:

* Python `float` values are modelled as exact rationals `ℚ`;
* a Python value of static type `Any` is modelled by the small dynamic
  type `PyVal`;
* raised exceptions are modelled with `Except PyErr`;
* the two external collaborators — the text-generation backend and the
  BERTScore similarity model — are passed in as explicit arguments
  (`Except String GenSuccess` for one backend call, and a
  `sim : String → String → ℚ` function);
* a compiled regular-expression pattern is modelled as a
  `RegularExpression Char` (Mathlib's regex type); the empty pattern
  string parses to `RegularExpression.epsilon`.
-/

namespace DecipherBench

/-- Dynamic Python values, as far as the benchmark core manipulates them:
`None`, booleans, strings and numbers (rationals standing for floats/ints). -/
inductive PyVal where
  | vNone : PyVal
  | vBool : Bool → PyVal
  | vStr : String → PyVal
  | vRat : ℚ → PyVal
deriving DecidableEq

/-- Python truthiness (`bool(v)`) for the values of `PyVal`. -/
def pyTruthy : PyVal → Bool
  | .vNone => false
  | .vBool b => b
  | .vStr s => s ≠ ""
  | .vRat q => q ≠ 0

/-- Python `str(v)` for the values of `PyVal` (numeric formatting is kept
abstract as the `toString` of the rational; no claim depends on it). -/
def pyStr : PyVal → String
  | .vNone => "None"
  | .vBool b => if b then "True" else "False"
  | .vStr s => s
  | .vRat q => toString q

/-- Python `str.strip()`: remove leading and trailing whitespace.  (The
embedding works on the character list so that it evaluates by kernel
reduction.) -/
def pyStrip (s : String) : String :=
  String.mk
    (((s.data.dropWhile Char.isWhitespace).reverse.dropWhile
        Char.isWhitespace).reverse)

/-- Exceptions raised by the embedded code. -/
inductive PyErr where
  | valueError : String → PyErr
  | typeError : String → PyErr
  | keyError : String → PyErr
deriving DecidableEq

/-- The dictionary `{"score": ..., "passed": ...}` returned by every
evaluator in `evaluators/core.py`. -/
structure EvalResult where
  score : ℚ
  passed : Bool
deriving DecidableEq

/-- The `Evaluation` pydantic model of `models.py`.  Field `type` is a free
string, `expected_answer` has type `Any`, and the pattern field holds the
compiled form of the optional pattern string (`RegularExpression.epsilon`
is the parse of the empty pattern string `""`).  Pydantic performs no
validation of these fields beyond their static types, so construction is
total. -/
structure Evaluation where
  type : String
  expected_answer : PyVal := .vNone
  acceptable_variations : Option (List String) := none
  regex_pattern : Option (RegularExpression Char) := none

/-- Structural test for the compiled form of the empty pattern string
(the Python-falsy pattern `""`). -/
def isEpsilonPat : RegularExpression Char → Bool
  | .epsilon => true
  | _ => false

/-- Python `re.search(p, s)` tried at a single start position: does some
initial segment of `s` match the pattern `p`? -/
def matchesInit (p : RegularExpression Char) (s : List Char) : Bool :=
  (List.range (s.length + 1)).any fun n => p.rmatch (s.take n)

/-- Python `re.search(p, s)` as a boolean: the pattern matches somewhere
inside `s` (search semantics — every start position is tried, and the
match may end anywhere). -/
def research (p : RegularExpression Char) (s : List Char) : Bool :=
  (List.range (s.length + 1)).any fun i => matchesInit p (s.drop i)

/-- The `regex_match_evaluator` of `evaluators/core.py`.  The source guard
is `if not evaluation.regex_pattern: raise ValueError(...)`, which fires on
Python-falsy patterns: a missing pattern (`None`) or the empty pattern
string (whose compiled form is `RegularExpression.epsilon`). -/
def regex_match_evaluator (response : String) (evaluation : Evaluation) :
    Except PyErr EvalResult :=
  match evaluation.regex_pattern with
  | none =>
      .error (.valueError "Regex pattern not provided for regex_match evaluator.")
  | some p =>
      if isEpsilonPat p then
        .error (.valueError "Regex pattern not provided for regex_match evaluator.")
      else
        let is_match := research p response.data
        .ok { score := if is_match then 1 else 0, passed := is_match }

/-- Split a character list into its maximal runs of non-space characters;
the second argument accumulates the current word reversed. -/
def wordsAux : List Char → List Char → List String
  | [], acc => if acc.isEmpty then [] else [String.mk acc.reverse]
  | c :: cs, acc =>
      if c = ' ' then
        if acc.isEmpty then wordsAux cs []
        else String.mk acc.reverse :: wordsAux cs []
      else wordsAux cs (c :: acc)

/-- Modelled from the spec: the tokenizer of the external `rouge_score`
library (not part of this repository) — lowercase the text, replace every
non-alphanumeric character by a space, split into words. -/
def rougeTokenize (text : String) : List String :=
  wordsAux ((text.data.map Char.toLower).map fun c =>
    if c.isAlphanum then c else ' ') []

/-- Modelled from the spec: the external `rouge_score` library stems each
token longer than three characters with a Porter stemmer; the stemmer
itself is the external parameter `stem`. -/
def stemTokens (stem : String → String) (toks : List String) : List String :=
  toks.map fun x => if x.length > 3 then stem x else x

/-- Length of a longest common subsequence of two token lists. -/
def lcsLen : List String → List String → Nat
  | [], _ => 0
  | _ :: _, [] => 0
  | a :: as, b :: bs =>
      if a = b then 1 + lcsLen as bs
      else max (lcsLen (a :: as) bs) (lcsLen as (b :: bs))
termination_by xs ys => xs.length + ys.length

/-- Modelled from the spec: the ROUGE-L F1 measure of the external
`rouge_score` library — word-level longest-common-subsequence precision
and recall on the stemmed token lists, combined into an F1 score; zero
when either side has no tokens or when precision + recall is zero. -/
def rougeLFmeasure (stem : String → String) (target prediction : String) : ℚ :=
  let t := stemTokens stem (rougeTokenize target)
  let p := stemTokens stem (rougeTokenize prediction)
  if t = [] ∨ p = [] then 0
  else
    let l : ℚ := (lcsLen t p : ℚ)
    let precision := l / (p.length : ℚ)
    let recallV := l / (t.length : ℚ)
    if precision + recallV > 0 then
      2 * precision * recallV / (precision + recallV)
    else 0

/-- The `exact_match_evaluator` of `evaluators/core.py`: trims the response
and the stringified reference, decides `passed` by full-string equality
against the reference or any trimmed acceptable variation, and always
computes the ROUGE-L F1 overlap as `score`. -/
def exact_match_evaluator (stem : String → String) (response : String)
    (evaluation : Evaluation) : EvalResult :=
  let response_clean := pyStrip response
  let expected_answer := pyStrip (pyStr evaluation.expected_answer)
  let variations := evaluation.acceptable_variations.getD []
  let passed0 := response_clean == expected_answer
  let passed :=
    if !passed0 && !variations.isEmpty then
      variations.any fun var => response_clean == pyStrip var
    else passed0
  let rouge_l_f1 := rougeLFmeasure stem expected_answer response_clean
  { score := rouge_l_f1, passed := passed }

/-- The `bertscore_evaluator` of `evaluators/core.py`: requires a string
reference, trims both sides, and returns the external model's F1 similarity
as the score with `passed` unconditionally true.  The external
`bert_score.score` call is the parameter `sim`. -/
def bertscore_evaluator (sim : String → String → ℚ) (response : String)
    (evaluation : Evaluation) : Except PyErr EvalResult :=
  match evaluation.expected_answer with
  | .vStr s => .ok { score := sim (pyStrip response) (pyStrip s), passed := true }
  | _ => .error (.typeError "expected_answer must be a string for BERTScore.")

/-- The dispatcher `evaluate_response` of `evaluators/core.py`: looks the
declared type up in the table {exact_match, regex_match, bert_score} and
delegates; any other type raises `ValueError`. -/
def evaluate_response (stem : String → String) (sim : String → String → ℚ)
    (response : String) (evaluation : Evaluation) : Except PyErr EvalResult :=
  if evaluation.type = "exact_match" then
    .ok (exact_match_evaluator stem response evaluation)
  else if evaluation.type = "regex_match" then
    regex_match_evaluator response evaluation
  else if evaluation.type = "bert_score" then
    bertscore_evaluator sim response evaluation
  else
    .error (.valueError ("Unknown evaluation type: " ++ evaluation.type))

/-- The `TestCaseParameters` pydantic model of `models.py` (floats as ℚ). -/
structure TestCaseParameters where
  temperature : ℚ := 0
  max_tokens : Nat := 512
  top_p : ℚ := 1
deriving DecidableEq

/-- The `TestCase` pydantic model of `models.py`. -/
structure TestCase where
  system_prompt : String := "You are a helpful assistant."
  user_prompt : String
  context : Option String := none
  parameters : TestCaseParameters := {}
deriving DecidableEq

/-- The `TestMetadata` pydantic model of `models.py` (`created_at` is a
wall-clock timestamp supplied by the environment and is omitted). -/
structure TestMetadata where
  author : Option String := none
  tags : List String := []
  difficulty : String := "medium"
deriving DecidableEq

/-- The `TestDefinition` pydantic model of `models.py`. -/
structure TestDefinition where
  test_id : String
  version : String := "1.0"
  metadata : TestMetadata := {}
  test_case : TestCase
  evaluation : Evaluation

/-- The `TestResult` pydantic model of `models.py`. -/
structure TestResult where
  test_id : String
  passed : Bool
  score : ℚ
  actual_output : String
  expected_output : PyVal
  error_message : Option String := none
  execution_time_ms : ℚ
  prompt_tokens : Option Nat := none
  completion_tokens : Option Nat := none
deriving DecidableEq

/-- A successful response of the external chat-completion backend: the
generated text plus token usage. -/
structure GenSuccess where
  content : String
  prompt_tokens : Nat
  completion_tokens : Nat
deriving DecidableEq

/-- The dictionary returned by `LLMBenchmark._call_llm` in `benchmark.py`. -/
structure LLMResult where
  actual_output : String
  prompt_tokens : Nat
  completion_tokens : Nat
  execution_time_ms : ℚ
  error : Option String
deriving DecidableEq

/-- The `_call_llm` method of `benchmark.py`.  The external backend call is
the argument `clientResult` (an exception carries its message string), and
the measured wall-clock latency is the argument `ms`. -/
def call_llm (clientResult : Except String GenSuccess) (ms : ℚ) : LLMResult :=
  match clientResult with
  | .ok r =>
      { actual_output := r.content, prompt_tokens := r.prompt_tokens,
        completion_tokens := r.completion_tokens, execution_time_ms := ms,
        error := none }
  | .error e =>
      { actual_output := "", prompt_tokens := 0, completion_tokens := 0,
        execution_time_ms := ms, error := some e }

/-- Python truthiness of the `Optional[str]` error field: `None` and the
empty string are falsy. -/
def pyTruthyOptStr : Option String → Bool
  | none => false
  | some s => s ≠ ""

/-- The `run_test` method of `benchmark.py`, generalized over the evaluator
it dispatches to (the source calls `evaluators.evaluate_response` here; see
`run_test`).  Loading the test definition from disk is external, so the
already-parsed `TestDefinition` is an argument, as are the backend call's
outcome and its measured latency.  The guard on the error field is the
source's `if llm_result["error"]:`, i.e. Python truthiness. -/
def run_testWith (evalFn : String → Evaluation → Except PyErr EvalResult)
    (clientResult : Except String GenSuccess) (ms : ℚ)
    (test_def : TestDefinition) : Except PyErr TestResult :=
  let llm_result := call_llm clientResult ms
  let eval_result : Except PyErr EvalResult :=
    if pyTruthyOptStr llm_result.error then
      .ok { score := 0, passed := false }
    else
      evalFn llm_result.actual_output test_def.evaluation
  eval_result.map fun er =>
    { test_id := test_def.test_id
      passed := er.passed
      score := er.score
      actual_output := llm_result.actual_output
      expected_output := test_def.evaluation.expected_answer
      error_message := llm_result.error
      execution_time_ms := llm_result.execution_time_ms
      prompt_tokens := some llm_result.prompt_tokens
      completion_tokens := some llm_result.completion_tokens }

/-- The `run_test` method of `benchmark.py` proper: `run_testWith`
instantiated with the evaluation dispatcher `evaluate_response`. -/
def run_test (stem : String → String) (sim : String → String → ℚ)
    (clientResult : Except String GenSuccess) (ms : ℚ)
    (test_def : TestDefinition) : Except PyErr TestResult :=
  run_testWith (evaluate_response stem sim) clientResult ms test_def

/-- The `run_all` method of `benchmark.py`: runs each discovered test in
order, collecting the results in a list.  Each trial carries its parsed
definition together with its backend outcome and latency; an uncaught
exception raised inside `run_test` propagates and aborts the whole loop,
which `Except`'s `mapM` models. -/
def run_all (stem : String → String) (sim : String → String → ℚ)
    (trials : List (TestDefinition × Except String GenSuccess × ℚ)) :
    Except PyErr (List TestResult) :=
  trials.mapM fun t => run_test stem sim t.2.1 t.2.2 t.1

/-- A row as `generate_html_report` consumes it: subscripting with a string
key either yields a value or raises. -/
def Row : Type := String → Except PyErr PyVal

/-- Subscripting a pydantic `TestResult` instance (`r["passed"]`, ...):
`BaseModel` defines no item access, so every subscript raises `TypeError`. -/
def TestResult.getitem (_ : TestResult) (_ : String) : Except PyErr PyVal :=
  .error (.typeError "TestResult object is not subscriptable")

/-- Reading a `PyVal` where Python arithmetic needs a number; a non-numeric
operand raises `TypeError`.  Booleans are numeric in Python (`True == 1`). -/
def asRat : PyVal → Except PyErr ℚ
  | .vRat q => .ok q
  | .vBool b => .ok (if b then 1 else 0)
  | _ => .error (.typeError "unsupported operand type for +")

/-- The generator sum `sum(1 for r in results if r["passed"])` of
`reporters.py`, threading the subscript's possible exception. -/
def sumPassed (rows : List Row) : Except PyErr Nat :=
  rows.foldlM (fun acc r => do
    let v ← r "passed"
    pure (if pyTruthy v then acc + 1 else acc)) 0

/-- The generator sum `sum(r["score"] for r in results if r["score"] is not
None)` of `reporters.py`, with float addition modelled as exact rational
addition (the binary64 model `fadd`/`pySumFloat` captures the rounding the
program additionally performs at each step). -/
def sumScores (rows : List Row) : Except PyErr ℚ :=
  rows.foldlM (fun acc r => do
    let v ← r "score"
    if v = .vNone then pure acc
    else do
      let q ← asRat v
      pure (acc + q)) 0

/-- The generator sum `sum(r["execution_time_ms"] for r in results)` of
`reporters.py`, again with float addition modelled as exact rational
addition. -/
def sumTime (rows : List Row) : Except PyErr ℚ :=
  rows.foldlM (fun acc r => do
    let v ← r "execution_time_ms"
    let q ← asRat v
    pure (acc + q)) 0

/-- One step of building the `defaultdict(list)` grouping of
`reporters.py`: append `r` to the group keyed `c`, creating the group at
the end on first sight of the key (dict insertion order). -/
def insertGroup {α : Type} (acc : List (PyVal × List α)) (c : PyVal) (r : α) :
    List (PyVal × List α) :=
  match acc with
  | [] => [(c, [r])]
  | (k, rs) :: rest =>
      if k = c then (k, rs ++ [r]) :: rest
      else (k, rs) :: insertGroup rest c r

/-- The grouping loop `for r in results: results_by_category[r['category']]
.append(r)` of `reporters.py`. -/
def groupByCategory (rows : List Row) : Except PyErr (List (PyVal × List Row)) :=
  rows.foldlM (fun acc r => do
    let c ← r "category"
    pure (insertGroup acc c r)) []

/-- One per-category summary dictionary of `reporters.py`. -/
structure CatSummary where
  score : ℚ
  tests_run : Nat
  passed : Nat
  failed : Nat
deriving DecidableEq

/-- The per-category summary computation of `reporters.py`. -/
def catSummaryOf (rows : List Row) : Except PyErr CatSummary := do
  let cat_total := rows.length
  let cat_passed ← sumPassed rows
  let s ← sumScores rows
  pure { score := if cat_total > 0 then s / (cat_total : ℚ) else 0
         tests_run := cat_total
         passed := cat_passed
         failed := cat_total - cat_passed }

/-- The overall `summary` dictionary of `reporters.py` (`average_score` and
`execution_time` are kept as the exact numbers the source formats into
strings for display). -/
structure Summary where
  total_tests : Nat
  passed : Nat
  failed : Nat
  average_score : ℚ
  execution_time : ℚ
deriving DecidableEq

/-- Everything `generate_html_report` computes and hands to the (external)
template renderer: the overall summary and the per-category summaries in
dict insertion order. -/
structure Report where
  summary : Summary
  summary_by_category : List (PyVal × CatSummary)
deriving DecidableEq

/-- The aggregation core of `generate_html_report` in `reporters.py`, in
source order: totals, pass/fail counts, average score (sum of non-`None`
scores divided by the total row count), total time, grouping by the
`'category'` key, and per-category summaries.  Template rendering and the
file write that follow are external I/O and out of the specified core. -/
def generate_html_report (results : List Row) : Except PyErr Report := do
  let total_tests := results.length
  let passed_tests ← sumPassed results
  let failed_tests := total_tests - passed_tests
  let score_sum ← sumScores results
  let average_score := if total_tests > 0 then score_sum / (total_tests : ℚ) else 0
  let time_sum ← sumTime results
  let total_time_s := time_sum / 1000
  let groups ← groupByCategory results
  let summary_by_category ← groups.mapM fun g => do
    let cs ← catSummaryOf g.2
    pure (g.1, cs)
  pure { summary := { total_tests := total_tests
                      passed := passed_tests
                      failed := failed_tests
                      average_score := average_score
                      execution_time := total_time_s }
         summary_by_category := summary_by_category }

/-- The `generate_report` method of `benchmark.py`: passes the runner's
`TestResult` list straight to `generate_html_report`, whose subscripting of
each element is `TestResult.getitem`. -/
def generate_report (results : List TestResult) : Except PyErr Report :=
  generate_html_report (results.map fun r => r.getitem)

/-- A well-formed result row — a dictionary carrying exactly the keys the
aggregator reads, with values of the types the source arithmetic expects.
The score may be `None` (the source filters on `r["score"] is not None`). -/
structure RRow where
  passed : Bool
  score : Option ℚ
  execution_time_ms : ℚ
  category : PyVal
deriving DecidableEq

/-- The dictionary view of a well-formed row. -/
def RRow.toRow (r : RRow) : Row := fun k =>
  if k = "passed" then .ok (.vBool r.passed)
  else if k = "score" then
    .ok (match r.score with
         | some q => .vRat q
         | none => .vNone)
  else if k = "execution_time_ms" then .ok (.vRat r.execution_time_ms)
  else if k = "category" then .ok r.category
  else .error (.keyError k)

/-- The grouping loop of `reporters.py` on well-formed rows, as a pure
fold. -/
def groupsOf (l : List RRow) : List (PyVal × List RRow) :=
  l.foldl (fun acc r => insertGroup acc r.category r) []

/-- The per-category summary of `reporters.py` on well-formed rows. -/
def pureCatSummary (rs : List RRow) : CatSummary :=
  { score := if rs.length > 0 then
        ((rs.filterMap fun r => r.score).sum) / (rs.length : ℚ)
      else 0
    tests_run := rs.length
    passed := rs.countP fun r => r.passed
    failed := rs.length - rs.countP fun r => r.passed }

/-- What `generate_html_report` computes on a list of well-formed rows. -/
def pureReport (l : List RRow) : Report :=
  { summary := { total_tests := l.length
                 passed := l.countP fun r => r.passed
                 failed := l.length - l.countP fun r => r.passed
                 average_score := if l.length > 0 then
                     ((l.filterMap fun r => r.score).sum) / (l.length : ℚ)
                   else 0
                 execution_time := ((l.map fun r => r.execution_time_ms).sum) / 1000 }
    summary_by_category := (groupsOf l).map fun g => (g.1, pureCatSummary g.2) }

/-- Association lookup, the mathematical content of indexing the summary
dictionaries (Python dict equality ignores insertion order, so summaries
are compared through this lookup). -/
def lookupG {α : Type} (c : PyVal) : List (PyVal × α) → Option α
  | [] => none
  | g :: rest => if g.1 = c then some g.2 else lookupG c rest

/-- Either prolong an already-present group or create it at the end: the
value of a lookup after folding a grouping step over a list. -/
def lookupExtend {α : Type} (o : Option (List α)) (f : List α) : Option (List α) :=
  match o, f with
  | some rs, f => some (rs ++ f)
  | none, [] => none
  | none, f => some f

/-- Number of binary digits of `n`, by fuelled halving (structural, so it
evaluates by kernel reduction); the fuel `n` itself always suffices. -/
def bitsFuel : ℕ → ℕ → ℕ
  | 0, _ => 0
  | fuel + 1, n => if n = 0 then 0 else bitsFuel fuel (n / 2) + 1

/-- Number of binary digits of `n` (`bits 0 = 0`, `bits 1 = 1`, ...). -/
def bits (n : ℕ) : ℕ := bitsFuel n n

/-- IEEE-754 binary64 rounding of the exact nonnegative dyadic value
`m * 2^e` to a 53-bit significand, round to nearest with ties to even (the
rounding mode of Python float arithmetic).  The result is value-correct:
it depends only on `m * 2^e`, not on the chosen representation.  Values
whose integer significand already fits in 53 bits are exact (all inputs in
this development are in the normal range — no subnormals or overflow). -/
def roundMant (m : ℕ) (e : ℤ) : ℕ × ℤ :=
  let b := bits m
  if b ≤ 53 then (m, e)
  else
    let k := b - 53
    let q := m / 2 ^ k
    let d := m % 2 ^ k
    let half := 2 ^ (k - 1)
    let q' := if d < half then q
              else if half < d then q + 1
              else if q % 2 = 0 then q else q + 1
    (q', e + k)

/-- Exact sum of two nonnegative dyadic values `m * 2^e`, by aligning the
exponents. -/
def dyAdd : (ℕ × ℤ) → (ℕ × ℤ) → ℕ × ℤ
  | (m1, e1), (m2, e2) =>
      if e1 ≤ e2 then (m1 + m2 * 2 ^ (e2 - e1).toNat, e1)
      else (m1 * 2 ^ (e1 - e2).toNat + m2, e2)

/-- IEEE-754 binary64 addition of nonnegative normal-range doubles: the
exact dyadic sum rounded to 53 bits, nearest / ties to even — the `+` the
source's `sum(...)` folds over its float scores and times. -/
def fadd (x y : ℕ × ℤ) : ℕ × ℤ :=
  let s := dyAdd x y
  if s.1 = 0 then (0, 0) else roundMant s.1 s.2

/-- Python `sum()` over a list of (nonnegative) floats at IEEE binary64
semantics: a left fold of `fadd` from 0, exactly as `reporters.py` sums
the score and time fields. -/
def pySumFloat (l : List (ℕ × ℤ)) : ℕ × ℤ := l.foldl fadd (0, 0)

/-- Division of a normal-range binary64 value by 4, which IEEE arithmetic
performs exactly (an exponent shift): the `sum(...) / cat_total` of
`reporters.py` for a category of four trials. -/
def fdiv4 (x : ℕ × ℤ) : ℕ × ℤ := (x.1, x.2 - 2)

/-- The binary64 double written `0.1` in a test's score field:
3602879701896397 * 2^-55. -/
def f01 : ℕ × ℤ := (3602879701896397, -55)

/-- The binary64 double written `0.2`: 3602879701896397 * 2^-54. -/
def f02 : ℕ × ℤ := (3602879701896397, -54)

/-- The binary64 double written `0.3`: 5404319552844595 * 2^-54. -/
def f03 : ℕ × ℤ := (5404319552844595, -54)

/-- The binary64 double `0.0`. -/
def f00 : ℕ × ℤ := (0, 0)

theorem except_pure_eq {e a : Type} (x : a) : (pure x : Except e a) = .ok x := rfl

theorem except_bind_ok {e a b : Type} (x : a) (f : a → Except e b) :
    (Except.ok x >>= f) = f x := rfl

theorem toRow_passed (r : RRow) : r.toRow "passed" = .ok (.vBool r.passed) := rfl

theorem toRow_category (r : RRow) : r.toRow "category" = .ok r.category := rfl

theorem foldlM_map_ok {e γ α β : Type} (m : γ → α)
    (f : β → α → Except e β) (g : β → γ → β)
    (h : ∀ b c, f b (m c) = .ok (g b c)) (l : List γ) :
    ∀ b : β, List.foldlM f b (l.map m) = .ok (List.foldl g b l) := by
  induction l with
  | nil => intro b; rfl
  | cons c l ih =>
      intro b
      rw [List.map_cons]
      have hstep : List.foldlM f b (m c :: l.map m)
          = f b (m c) >>= fun b' => List.foldlM f b' (l.map m) := rfl
      rw [hstep, h, except_bind_ok, ih, List.foldl_cons]

theorem foldl_countP (l : List RRow) :
    ∀ n : ℕ, List.foldl (fun acc r => if r.passed then acc + 1 else acc) n l
      = n + l.countP fun r => r.passed := by
  induction l with
  | nil => intro n; simp
  | cons r l ih =>
      intro n
      rw [List.foldl_cons, List.countP_cons, ih]
      cases r.passed
      · simp
      · simp
        omega

theorem sumPassed_map (l : List RRow) :
    sumPassed (l.map RRow.toRow) = .ok (l.countP fun r => r.passed) := by
  have h := foldlM_map_ok RRow.toRow
    (fun acc r => do
      let v ← r "passed"
      pure (if pyTruthy v then acc + 1 else acc))
    (fun acc r => if r.passed then acc + 1 else acc)
    (fun b c => rfl) l 0
  rw [sumPassed, h, foldl_countP, Nat.zero_add]

theorem foldl_scores (l : List RRow) :
    ∀ q : ℚ, List.foldl (fun acc r => match r.score with
        | some x => acc + x
        | none => acc) q l
      = q + (l.filterMap fun r => r.score).sum := by
  induction l with
  | nil => intro q; simp
  | cons r l ih =>
      intro q
      rw [List.foldl_cons, List.filterMap_cons]
      cases hs : r.score with
      | none => simp only [hs, ih]
      | some x => simp only [hs, ih, List.sum_cons, add_assoc]

theorem sumScores_map (l : List RRow) :
    sumScores (l.map RRow.toRow) = .ok ((l.filterMap fun r => r.score).sum) := by
  have h := foldlM_map_ok RRow.toRow
    (fun acc r => do
      let v ← r "score"
      if v = PyVal.vNone then pure acc
      else do
        let x ← asRat v
        pure (acc + x))
    (fun acc r => match r.score with
      | some x => acc + x
      | none => acc)
    (fun b c => by obtain ⟨p, sc, t, cat⟩ := c; cases sc <;> rfl) l 0
  rw [sumScores, h, foldl_scores, zero_add]

theorem foldl_time (l : List RRow) :
    ∀ q : ℚ, List.foldl (fun acc r => acc + r.execution_time_ms) q l
      = q + (l.map fun r => r.execution_time_ms).sum := by
  induction l with
  | nil => intro q; simp
  | cons r l ih =>
      intro q
      rw [List.foldl_cons, List.map_cons, List.sum_cons, ih, add_assoc]

theorem sumTime_map (l : List RRow) :
    sumTime (l.map RRow.toRow) = .ok ((l.map fun r => r.execution_time_ms).sum) := by
  have h := foldlM_map_ok RRow.toRow
    (fun acc r => do
      let v ← r "execution_time_ms"
      let x ← asRat v
      pure (acc + x))
    (fun acc r => acc + r.execution_time_ms)
    (fun b c => rfl) l 0
  rw [sumTime, h, foldl_time, zero_add]

theorem insertGroup_map_toRow (acc : List (PyVal × List RRow)) (c : PyVal)
    (r : RRow) :
    insertGroup (acc.map fun g => (g.1, g.2.map RRow.toRow)) c (RRow.toRow r)
      = (insertGroup acc c r).map fun g => (g.1, g.2.map RRow.toRow) := by
  induction acc with
  | nil => simp [insertGroup]
  | cons g rest ih =>
      by_cases h : g.1 = c <;> simp [insertGroup, h, ih]

theorem foldl_group (l : List RRow) :
    ∀ acc : List (PyVal × List RRow),
      List.foldl (fun a r => insertGroup a r.category (RRow.toRow r))
        (acc.map fun g => (g.1, g.2.map RRow.toRow)) l
      = (List.foldl (fun a r => insertGroup a r.category r) acc l).map
          fun g => (g.1, g.2.map RRow.toRow) := by
  induction l with
  | nil => intro acc; rfl
  | cons r l ih =>
      intro acc
      rw [List.foldl_cons, List.foldl_cons, insertGroup_map_toRow]
      exact ih (insertGroup acc r.category r)

theorem groupByCategory_map (l : List RRow) :
    groupByCategory (l.map RRow.toRow)
      = .ok ((groupsOf l).map fun g => (g.1, g.2.map RRow.toRow)) := by
  have h := foldlM_map_ok RRow.toRow
    (fun acc r => do
      let c ← r "category"
      pure (insertGroup acc c r))
    (fun acc r => insertGroup acc r.category (RRow.toRow r))
    (fun b c => rfl) l []
  rw [groupByCategory, h, groupsOf]
  rw [show ([] : List (PyVal × List Row))
      = (([] : List (PyVal × List RRow)).map fun g => (g.1, g.2.map RRow.toRow))
    from rfl]
  rw [foldl_group]

theorem catSummaryOf_map (rs : List RRow) :
    catSummaryOf (rs.map RRow.toRow) = .ok (pureCatSummary rs) := by
  simp [catSummaryOf, pureCatSummary, sumPassed_map, sumScores_map,
    except_bind_ok, except_pure_eq, List.length_map]

theorem mapM_catSummaries (gs : List (PyVal × List RRow)) :
    ((gs.map fun g => (g.1, g.2.map RRow.toRow)).mapM fun g => do
        let cs ← catSummaryOf g.2
        pure (g.1, cs))
      = .ok (gs.map fun g => (g.1, pureCatSummary g.2)) := by
  induction gs with
  | nil => rfl
  | cons g rest ih =>
      simp only [List.map_cons, List.mapM_cons, catSummaryOf_map,
        except_bind_ok, pure_bind]
      rw [ih, except_bind_ok, except_pure_eq]

theorem generate_html_report_map (l : List RRow) :
    generate_html_report (l.map RRow.toRow) = .ok (pureReport l) := by
  simp only [generate_html_report, pureReport, sumPassed_map, sumScores_map,
    sumTime_map, groupByCategory_map, except_bind_ok, pure_bind,
    List.length_map]
  rw [mapM_catSummaries, except_bind_ok, except_pure_eq]

theorem lookupG_insertGroup {α : Type} (acc : List (PyVal × List α))
    (c c' : PyVal) (r : α) :
    lookupG c (insertGroup acc c' r)
      = if c' = c then some (((lookupG c acc).getD []) ++ [r])
        else lookupG c acc := by
  induction acc with
  | nil =>
      by_cases h : c' = c
      · simp [insertGroup, lookupG, h]
      · simp [insertGroup, lookupG, h]
  | cons g rest ih =>
      simp only [insertGroup]
      by_cases hk : g.1 = c'
      · rw [if_pos hk]
        by_cases hc : c' = c
        · have hg : g.1 = c := hk.trans hc
          simp [lookupG, hg, hc]
        · have hg : ¬ g.1 = c := fun h => hc (hk.symm.trans h)
          simp [lookupG, hg, hc]
      · rw [if_neg hk]
        by_cases hg : g.1 = c
        · have hc : ¬ c' = c := fun h => hk (hg.trans h.symm)
          simp [lookupG, hg, hc]
        · by_cases hc : c' = c
          · subst hc
            simp [lookupG, hg, ih]
          · simp [lookupG, hg, hc, ih]

theorem lookupG_foldl_insert (c : PyVal) (l : List RRow) :
    ∀ acc : List (PyVal × List RRow),
      lookupG c (List.foldl (fun a r => insertGroup a r.category r) acc l)
        = lookupExtend (lookupG c acc) (l.filter fun r => r.category = c) := by
  induction l with
  | nil =>
      intro acc
      cases h : lookupG c acc <;> simp [lookupExtend, h]
  | cons r l ih =>
      intro acc
      rw [List.foldl_cons, ih, lookupG_insertGroup, List.filter_cons]
      by_cases hr : r.category = c
      · cases h : lookupG c acc <;>
          simp [lookupExtend, hr, h, List.append_assoc]
      · cases h : lookupG c acc <;>
          simp [lookupExtend, hr, h]

theorem lookupG_groupsOf (c : PyVal) (l : List RRow) :
    lookupG c (groupsOf l)
      = if (l.filter fun r => r.category = c) = [] then none
        else some (l.filter fun r => r.category = c) := by
  rw [groupsOf, lookupG_foldl_insert c l []]
  cases hf : (l.filter fun r => r.category = c) with
  | nil => simp [lookupExtend, lookupG]
  | cons a f => simp [lookupExtend, lookupG]

theorem lookupG_map_snd {α β : Type} (c : PyVal) (f : α → β)
    (gs : List (PyVal × α)) :
    lookupG c (gs.map fun g => (g.1, f g.2)) = (lookupG c gs).map f := by
  induction gs with
  | nil => rfl
  | cons g rest ih =>
      by_cases h : g.1 = c <;> simp [lookupG, h, ih]

theorem lookupG_pureReport (c : PyVal) (l : List RRow) :
    lookupG c (pureReport l).summary_by_category
      = if (l.filter fun r => r.category = c) = [] then none
        else some (pureCatSummary (l.filter fun r => r.category = c)) := by
  rw [pureReport]
  rw [lookupG_map_snd c pureCatSummary (groupsOf l), lookupG_groupsOf]
  by_cases h : (l.filter fun r => r.category = c) = [] <;> simp [h]

theorem filterMap_score_length (l : List RRow) (h : ∀ r ∈ l, r.score ≠ none) :
    (l.filterMap fun r => r.score).length = l.length := by
  induction l with
  | nil => rfl
  | cons r rest ih =>
      rw [List.filterMap_cons]
      cases hs : r.score with
      | none => exact absurd hs (h r (List.mem_cons_self r rest))
      | some x =>
          simp only [List.length_cons]
          rw [ih fun a ha => h a (List.mem_cons_of_mem r ha)]

theorem pureCatSummary_perm {l1 l2 : List RRow} (h : l1.Perm l2) :
    pureCatSummary l1 = pureCatSummary l2 := by
  have hlen := h.length_eq
  have hcount := List.Perm.countP_eq (fun r => r.passed) h
  have hsum := List.Perm.sum_eq (h.filterMap fun r => r.score)
  simp [pureCatSummary, hlen, hcount, hsum]

theorem pureReport_summary_perm {l1 l2 : List RRow} (h : l1.Perm l2) :
    (pureReport l1).summary = (pureReport l2).summary := by
  have hlen := h.length_eq
  have hcount := List.Perm.countP_eq (fun r => r.passed) h
  have hsum := List.Perm.sum_eq (h.filterMap fun r => r.score)
  have htime := List.Perm.sum_eq (h.map fun r => r.execution_time_ms)
  simp [pureReport, hlen, hcount, hsum, htime]

theorem pureReport_lookup_perm {l1 l2 : List RRow} (h : l1.Perm l2) (c : PyVal) :
    lookupG c (pureReport l1).summary_by_category
      = lookupG c (pureReport l2).summary_by_category := by
  rw [lookupG_pureReport, lookupG_pureReport]
  have hf : (l1.filter fun r => r.category = c).Perm
      (l2.filter fun r => r.category = c) := h.filter _
  by_cases h1 : (l1.filter fun r => r.category = c) = []
  · have h2 : (l2.filter fun r => r.category = c) = [] := by
      have := hf.length_eq
      rw [h1] at this
      exact List.length_eq_zero.mp this.symm
    simp [h1, h2]
  · have h2 : ¬ (l2.filter fun r => r.category = c) = [] := by
      intro h2
      have := hf.length_eq
      rw [h2] at this
      exact h1 (List.length_eq_zero.mp this)
    simp [h1, h2, pureCatSummary_perm hf]

theorem matchesInit_iff (p : RegularExpression Char) (s : List Char) :
    matchesInit p s = true ↔ ∃ n : ℕ, s.take n ∈ p.matches' := by
  rw [matchesInit, List.any_eq_true]
  constructor
  · rintro ⟨n, _, hm⟩
    exact ⟨n, (RegularExpression.rmatch_iff_matches' p (s.take n)).mp hm⟩
  · rintro ⟨n, hm⟩
    by_cases hn : n ≤ s.length
    · refine ⟨n, List.mem_range.mpr (by omega), ?_⟩
      exact (RegularExpression.rmatch_iff_matches' p (s.take n)).mpr hm
    · refine ⟨s.length, List.mem_range.mpr (by omega), ?_⟩
      rw [List.take_length]
      rw [List.take_of_length_le (by omega)] at hm
      exact (RegularExpression.rmatch_iff_matches' p s).mpr hm

theorem research_iff (p : RegularExpression Char) (s : List Char) :
    research p s = true
      ↔ ∃ u v w : List Char, s = u ++ v ++ w ∧ v ∈ p.matches' := by
  rw [research, List.any_eq_true]
  constructor
  · rintro ⟨i, _, hm⟩
    obtain ⟨n, hn⟩ := (matchesInit_iff p (s.drop i)).mp hm
    refine ⟨s.take i, (s.drop i).take n, (s.drop i).drop n, ?_, hn⟩
    rw [List.append_assoc, List.take_append_drop, List.take_append_drop]
  · rintro ⟨u, v, w, hs, hm⟩
    subst hs
    refine ⟨u.length, List.mem_range.mpr ?_, ?_⟩
    · simp [List.length_append]
      omega
    · refine (matchesInit_iff p _).mpr ⟨v.length, ?_⟩
      rw [List.append_assoc, List.drop_left, List.take_left]
      exact hm

theorem except_bind_error {e a b : Type} (x : e) (f : a → Except e b) :
    (Except.error x >>= f) = .error x := rfl

/-- C3 counterexample: the kind `semantic_similarity` named by the claim is
NOT in the dispatcher's table — dispatching on it raises the unknown-type
`ValueError`, so the closed set is not the one the claim states. -/
theorem C3_counterexample :
    evaluate_response (fun s => s) (fun _ _ => 0) "x"
      { type := "semantic_similarity", expected_answer := .vStr "y" }
      = .error (.valueError "Unknown evaluation type: semantic_similarity") := rfl

/-- C3 (amended): the dispatcher's closed set of accepted kinds is exactly
{exact_match, regex_match, bert_score} — the semantic-similarity strategy
is registered under the kind string `bert_score`, not `semantic_similarity`.
For each of the three table kinds `evaluate_response` delegates verbatim to
the matching strategy and returns its result unmodified; every other kind
value fails with the unknown-type `ValueError`. -/
theorem C3_amended_dispatch_table (stem : String → String)
    (sim : String → String → ℚ) (resp : String) (ev : Evaluation) :
    (ev.type = "exact_match" →
        evaluate_response stem sim resp ev = .ok (exact_match_evaluator stem resp ev))
      ∧ (ev.type = "regex_match" →
          evaluate_response stem sim resp ev = regex_match_evaluator resp ev)
      ∧ (ev.type = "bert_score" →
          evaluate_response stem sim resp ev = bertscore_evaluator sim resp ev)
      ∧ (ev.type ∉ (["exact_match", "regex_match", "bert_score"] : List String) →
          evaluate_response stem sim resp ev
            = .error (.valueError ("Unknown evaluation type: " ++ ev.type))) := by
  refine ⟨?_, ?_, ?_, ?_⟩
  · intro h
    simp [evaluate_response, h]
  · intro h
    have h1 : ¬ ev.type = "exact_match" := by rw [h]; decide
    simp [evaluate_response, h, h1]
  · intro h
    have h1 : ¬ ev.type = "exact_match" := by rw [h]; decide
    have h2 : ¬ ev.type = "regex_match" := by rw [h]; decide
    simp [evaluate_response, h, h1, h2]
  · intro h
    have h1 : ¬ ev.type = "exact_match" := fun he => h (by rw [he]; simp)
    have h2 : ¬ ev.type = "regex_match" := fun he => h (by rw [he]; simp)
    have h3 : ¬ ev.type = "bert_score" := fun he => h (by rw [he]; simp)
    simp [evaluate_response, h1, h2, h3]

/-- C3 witness: the amended dispatch-table theorem applied at one concrete
specification per table entry and at one unknown kind. -/
theorem C3_amended_dispatch_table_witness :
    evaluate_response (fun s => s) (fun _ _ => 0) "x"
        { type := "exact_match", expected_answer := .vStr "x" }
      = .ok (exact_match_evaluator (fun s => s) "x"
          { type := "exact_match", expected_answer := .vStr "x" })
    ∧ evaluate_response (fun s => s) (fun _ _ => 0) "x"
        { type := "regex_match", regex_pattern := some (.char 'x') }
      = regex_match_evaluator "x"
          { type := "regex_match", regex_pattern := some (.char 'x') }
    ∧ evaluate_response (fun s => s) (fun _ _ => 0) "x"
        { type := "bert_score", expected_answer := .vStr "x" }
      = bertscore_evaluator (fun _ _ => 0) "x"
          { type := "bert_score", expected_answer := .vStr "x" }
    ∧ evaluate_response (fun s => s) (fun _ _ => 0) "x" { type := "mystery" }
      = .error (.valueError "Unknown evaluation type: mystery") := by
  refine ⟨?_, ?_, ?_, ?_⟩
  · exact (C3_amended_dispatch_table (fun s => s) (fun _ _ => 0) "x"
      { type := "exact_match", expected_answer := .vStr "x" }).1 rfl
  · exact (C3_amended_dispatch_table (fun s => s) (fun _ _ => 0) "x"
      { type := "regex_match", regex_pattern := some (.char 'x') }).2.1 rfl
  · exact (C3_amended_dispatch_table (fun s => s) (fun _ _ => 0) "x"
      { type := "bert_score", expected_answer := .vStr "x" }).2.2.1 rfl
  · exact (C3_amended_dispatch_table (fun s => s) (fun _ _ => 0) "x"
      { type := "mystery" }).2.2.2 (by decide)

/-- C2 counterexample: a `regex_match` specification without a pattern is
constructed without any error (its pattern field is simply `None`), and the
`InvalidSpecification`-style `ValueError` only surfaces later, when the
specification is scored — refuting "fails at construction time … never
deferred to scoring time". -/
theorem C2_counterexample :
    ({ type := "regex_match", expected_answer := .vStr "y" } : Evaluation).regex_pattern
        = none
      ∧ evaluate_response (fun s => s) (fun _ _ => 0) "x"
          { type := "regex_match", expected_answer := .vStr "y" }
        = .error (.valueError "Regex pattern not provided for regex_match evaluator.") :=
  ⟨rfl, rfl⟩

/-- C2 (amended): the `Evaluation` model performs no construction-time
validation — any kind string, a missing (or empty) regex pattern, and a
non-string semantic reference are all accepted at construction, and each
violation is detected only at scoring time: an unknown kind and a missing
pattern raise `ValueError`, a non-string BERTScore reference raises
`TypeError`, all from inside `evaluate_response`. -/
theorem C2_amended_validation_at_scoring_time (stem : String → String)
    (sim : String → String → ℚ) (resp : String) (ev : Evaluation) :
    (ev.type ∉ (["exact_match", "regex_match", "bert_score"] : List String) →
        evaluate_response stem sim resp ev
          = .error (.valueError ("Unknown evaluation type: " ++ ev.type)))
      ∧ (ev.type = "regex_match" →
          (ev.regex_pattern = none ∨ ev.regex_pattern = some RegularExpression.epsilon) →
          evaluate_response stem sim resp ev
            = .error (.valueError "Regex pattern not provided for regex_match evaluator."))
      ∧ (ev.type = "bert_score" →
          (∀ s : String, ev.expected_answer ≠ .vStr s) →
          evaluate_response stem sim resp ev
            = .error (.typeError "expected_answer must be a string for BERTScore.")) := by
  refine ⟨?_, ?_, ?_⟩
  · intro h
    have h1 : ¬ ev.type = "exact_match" := fun he => h (by rw [he]; simp)
    have h2 : ¬ ev.type = "regex_match" := fun he => h (by rw [he]; simp)
    have h3 : ¬ ev.type = "bert_score" := fun he => h (by rw [he]; simp)
    simp [evaluate_response, h1, h2, h3]
  · intro ht hp
    have h1 : ¬ ev.type = "exact_match" := by rw [ht]; decide
    rcases hp with hp | hp <;>
      simp [evaluate_response, ht, h1, regex_match_evaluator, hp, isEpsilonPat]
  · intro ht hs
    have h1 : ¬ ev.type = "exact_match" := by rw [ht]; decide
    have h2 : ¬ ev.type = "regex_match" := by rw [ht]; decide
    cases hv : ev.expected_answer with
    | vStr s => exact absurd hv (hs s)
    | vNone => simp [evaluate_response, ht, h1, h2, bertscore_evaluator, hv]
    | vBool b => simp [evaluate_response, ht, h1, h2, bertscore_evaluator, hv]
    | vRat q => simp [evaluate_response, ht, h1, h2, bertscore_evaluator, hv]

/-- C2 witness: the amended theorem applied to one malformed specification
of each of the three shapes. -/
theorem C2_amended_validation_at_scoring_time_witness :
    evaluate_response (fun s => s) (fun _ _ => 0) "x" { type := "bogus" }
      = .error (.valueError "Unknown evaluation type: bogus")
    ∧ evaluate_response (fun s => s) (fun _ _ => 0) "x"
        { type := "regex_match", regex_pattern := some RegularExpression.epsilon }
      = .error (.valueError "Regex pattern not provided for regex_match evaluator.")
    ∧ evaluate_response (fun s => s) (fun _ _ => 0) "x"
        { type := "bert_score", expected_answer := .vRat 5 }
      = .error (.typeError "expected_answer must be a string for BERTScore.") := by
  refine ⟨?_, ?_, ?_⟩
  · exact (C2_amended_validation_at_scoring_time (fun s => s) (fun _ _ => 0) "x"
      { type := "bogus" }).1 (by decide)
  · exact (C2_amended_validation_at_scoring_time (fun s => s) (fun _ _ => 0) "x"
      { type := "regex_match", regex_pattern := some RegularExpression.epsilon }).2.1
      rfl (Or.inr rfl)
  · exact (C2_amended_validation_at_scoring_time (fun s => s) (fun _ _ => 0) "x"
      { type := "bert_score", expected_answer := .vRat 5 }).2.2
      rfl (fun s h => by cases h)

/-- C1 counterexample: a batch of two trials whose first test definition
declares the unknown kind `semantic_similarity` (with a successful backend
call) makes the whole batch run raise the unknown-type `ValueError`; no
Trial Result is produced for either trial, so the error is not surfaced in
a result field and the second (well-formed) trial is never scored. -/
theorem C1_counterexample :
    run_all (fun s => s) (fun _ _ => 0)
      [({ test_id := "bad", test_case := { user_prompt := "q1" },
          evaluation := { type := "semantic_similarity", expected_answer := .vStr "y" } },
        .ok { content := "a", prompt_tokens := 1, completion_tokens := 1 }, 1),
       ({ test_id := "good", test_case := { user_prompt := "q2" },
          evaluation := { type := "regex_match", regex_pattern := some (.char 'a') } },
        .ok { content := "a", prompt_tokens := 1, completion_tokens := 1 }, 1)]
      = .error (.valueError "Unknown evaluation type: semantic_similarity") := rfl

/-- C1 (amended): a structural evaluation error is not caught anywhere in
the trial runner — if a trial's evaluation raises, `run_test` propagates
the exception, no Trial Result is produced for that trial, and `run_all`
aborts the whole batch with that same exception, so the remaining trials
are never run or scored. -/
theorem C1_amended_structural_error_aborts_batch (stem : String → String)
    (sim : String → String → ℚ) (t : TestDefinition)
    (cr : Except String GenSuccess) (ms : ℚ)
    (rest : List (TestDefinition × Except String GenSuccess × ℚ)) (e : PyErr)
    (h : run_test stem sim cr ms t = .error e) :
    run_all stem sim ((t, cr, ms) :: rest) = .error e := by
  simp only [run_all, List.mapM_cons]
  rw [h]
  rfl

/-- C1 witness: the amended batch-abort theorem applied to a concrete
malformed test followed by one further trial. -/
theorem C1_amended_structural_error_aborts_batch_witness :
    run_all (fun s => s) (fun _ _ => 0)
      [({ test_id := "bad", test_case := { user_prompt := "q" },
          evaluation := { type := "nope" } },
        .ok { content := "a", prompt_tokens := 1, completion_tokens := 1 }, 1),
       ({ test_id := "later", test_case := { user_prompt := "q" },
          evaluation := { type := "regex_match", regex_pattern := some (.char 'a') } },
        .ok { content := "a", prompt_tokens := 1, completion_tokens := 1 }, 1)]
      = .error (.valueError "Unknown evaluation type: nope") :=
  C1_amended_structural_error_aborts_batch (fun s => s) (fun _ _ => 0)
    { test_id := "bad", test_case := { user_prompt := "q" },
      evaluation := { type := "nope" } }
    (.ok { content := "a", prompt_tokens := 1, completion_tokens := 1 }) 1
    [({ test_id := "later", test_case := { user_prompt := "q" },
        evaluation := { type := "regex_match", regex_pattern := some (.char 'a') } },
      .ok { content := "a", prompt_tokens := 1, completion_tokens := 1 }, 1)]
    (.valueError "Unknown evaluation type: nope") rfl

/-- C5: feeding any non-empty sequence of the trial runner's own
`TestResult` values to the report entry point raises (`TestResult` is not
the string-keyed mapping with a `category` key that the aggregator
subscripts), so no summaries — in particular no per-category summaries —
are ever produced through the runner's own result type. -/
theorem C5_runner_results_break_reporter (results : List TestResult)
    (h : results ≠ []) :
    generate_report results
      = .error (.typeError "TestResult object is not subscriptable") := by
  cases results with
  | nil => exact absurd rfl h
  | cons r rest => rfl

/-- C5 witness: the reporter raises on a concrete single-element runner
result list. -/
theorem C5_runner_results_break_reporter_witness :
    generate_report
      [{ test_id := "t", passed := true, score := 1, actual_output := "a",
         expected_output := .vStr "a", error_message := none,
         execution_time_ms := 3, prompt_tokens := some 1,
         completion_tokens := some 1 }]
      = .error (.typeError "TestResult object is not subscriptable") :=
  C5_runner_results_break_reporter
    [{ test_id := "t", passed := true, score := 1, actual_output := "a",
       expected_output := .vStr "a", error_message := none,
       execution_time_ms := 3, prompt_tokens := some 1,
       completion_tokens := some 1 }]
    (List.cons_ne_nil _ _)

/-- C6 counterexample: a backend failure whose exception message is the
empty string does NOT short-circuit the trial — the source tests Python
truthiness of the message rather than presence of an error, so the
dispatcher IS invoked on the empty candidate; with an `a*` regex
specification the trial even comes out `passed=true, score=1.0`, and its
recorded failure reason is the empty string. -/
theorem C6_counterexample :
    run_test (fun s => s) (fun _ _ => 0) (.error "") 1
      { test_id := "t", test_case := { user_prompt := "q" },
        evaluation := { type := "regex_match",
                        regex_pattern := some (RegularExpression.star (.char 'a')) } }
      = .ok { test_id := "t", passed := true, score := 1, actual_output := "",
              expected_output := .vNone, error_message := some "",
              execution_time_ms := 1, prompt_tokens := some 0,
              completion_tokens := some 0 } := rfl

/-- C6 (amended): for every trial whose backend call raises with a
NON-EMPTY message, the trial short-circuits exactly as the claim says:
`passed=false`, `score=0`, the failure reason equals the backend's
message, the candidate text is empty, and the evaluator is never invoked —
the result is the same for every possible evaluator `evalFn`. -/
theorem C6_amended_generation_short_circuit
    (evalFn : String → Evaluation → Except PyErr EvalResult)
    (m : String) (hm : m ≠ "") (ms : ℚ) (test_def : TestDefinition) :
    run_testWith evalFn (.error m) ms test_def
      = .ok { test_id := test_def.test_id
              passed := false
              score := 0
              actual_output := ""
              expected_output := test_def.evaluation.expected_answer
              error_message := some m
              execution_time_ms := ms
              prompt_tokens := some 0
              completion_tokens := some 0 } := by
  simp [run_testWith, call_llm, pyTruthyOptStr, hm, Except.map]

/-- C6 witness: the short-circuit theorem applied with a backend error
message `boom` and an evaluator that would itself raise if it were ever
invoked. -/
theorem C6_amended_generation_short_circuit_witness :
    run_testWith (fun _ _ => .error (.typeError "must not be called"))
      (.error "boom") 2
      { test_id := "w", test_case := { user_prompt := "q" },
        evaluation := { type := "exact_match", expected_answer := .vStr "x" } }
      = .ok { test_id := "w", passed := false, score := 0, actual_output := "",
              expected_output := .vStr "x", error_message := some "boom",
              execution_time_ms := 2, prompt_tokens := some 0,
              completion_tokens := some 0 } :=
  C6_amended_generation_short_circuit
    (fun _ _ => .error (.typeError "must not be called")) "boom"
    (by decide) 2
    { test_id := "w", test_case := { user_prompt := "q" },
      evaluation := { type := "exact_match", expected_answer := .vStr "x" } }

theorem rougeLFmeasure_empty_prediction (stem : String → String)
    (target : String) : rougeLFmeasure stem target "" = 0 := by
  have hp : stemTokens stem (rougeTokenize "") = [] := rfl
  simp [rougeLFmeasure, hp]

theorem exact_match_passed_eq (stem : String → String) (resp : String)
    (ev : Evaluation) :
    (exact_match_evaluator stem resp ev).passed
      = (pyStrip resp == pyStrip (pyStr ev.expected_answer)
          || (ev.acceptable_variations.getD []).any fun var =>
              pyStrip resp == pyStrip var) := by
  cases h0 : pyStrip resp == pyStrip (pyStr ev.expected_answer)
  · cases hv : (ev.acceptable_variations.getD []).isEmpty
    · simp [exact_match_evaluator, h0, hv]
    · have hnil : ev.acceptable_variations.getD [] = [] :=
        List.isEmpty_iff.mp hv
      simp [exact_match_evaluator, h0, hnil]
  · simp [exact_match_evaluator, h0]

/-- C7 counterexample: an empty candidate against the non-empty reference
`" "` (one space) yields `passed=true`, because both sides are equal after
trimming — refuting the claim's edge case "an empty candidate against a
non-empty reference yields passed=false". -/
theorem C7_counterexample :
    ((" " : String) ≠ "")
      ∧ (exact_match_evaluator (fun s => s) ""
          { type := "exact_match", expected_answer := .vStr " " }).passed
        = true := by
  refine ⟨by decide, by decide⟩

/-- C7 (amended): for every candidate and every specification,
`exact_match_evaluator` sets `passed` true iff the trimmed candidate equals
the trimmed (stringified) reference or equals some trimmed acceptable
variation; independently of `passed`, `score` is always the word-level
LCS-based ROUGE-L F1 overlap (with stemming) of the trimmed reference and
trimmed candidate.  An empty candidate always has overlap `score = 0`, and
it has `passed = false` provided the reference is non-empty AFTER trimming
and no acceptable variation trims to the empty string (the counterexample
shows the trimming proviso is necessary). -/
theorem C7_amended_exact_match (stem : String → String) (resp : String)
    (ev : Evaluation) :
    ((exact_match_evaluator stem resp ev).passed = true
        ↔ (pyStrip resp = pyStrip (pyStr ev.expected_answer)
            ∨ ∃ var ∈ ev.acceptable_variations.getD [],
                pyStrip resp = pyStrip var))
      ∧ (exact_match_evaluator stem resp ev).score
          = rougeLFmeasure stem (pyStrip (pyStr ev.expected_answer)) (pyStrip resp)
      ∧ (resp = "" → (exact_match_evaluator stem resp ev).score = 0)
      ∧ (resp = "" → pyStrip (pyStr ev.expected_answer) ≠ ""
          → (∀ var ∈ ev.acceptable_variations.getD [], pyStrip var ≠ "")
          → (exact_match_evaluator stem resp ev).passed = false) := by
  have hpass := exact_match_passed_eq stem resp ev
  refine ⟨?_, rfl, ?_, ?_⟩
  · rw [hpass]
    simp [List.any_eq_true]
  · intro h
    subst h
    show rougeLFmeasure stem (pyStrip (pyStr ev.expected_answer))
        (pyStrip "") = 0
    rw [show pyStrip "" = "" from rfl]
    exact rougeLFmeasure_empty_prediction stem _
  · intro h he hv
    subst h
    rw [hpass]
    rw [show pyStrip "" = "" from rfl]
    simp only [Bool.or_eq_false_iff, beq_eq_false_iff_ne, ne_eq,
      List.any_eq_false]
    exact ⟨fun hh => he hh.symm,
      fun var hv' hh => hv var hv' (eq_of_beq hh).symm⟩

/-- C7 witness: the amended theorem applied to the empty candidate against
the reference `"hi"` with no variations — score 0 and passed false. -/
theorem C7_amended_exact_match_witness :
    (exact_match_evaluator (fun s => s) ""
        { type := "exact_match", expected_answer := .vStr "hi" }).score = 0
      ∧ (exact_match_evaluator (fun s => s) ""
          { type := "exact_match", expected_answer := .vStr "hi" }).passed
        = false := by
  have h := C7_amended_exact_match (fun s => s) ""
    { type := "exact_match", expected_answer := .vStr "hi" }
  exact ⟨h.2.2.1 rfl,
    h.2.2.2 rfl (by decide) (fun var hv => absurd hv (List.not_mem_nil var))⟩

/-- C8: for every candidate and every `regex_match` specification carrying
a (non-empty, hence truthy) pattern, the evaluator succeeds; `passed` is
true iff the pattern matches somewhere inside the UNTRIMMED candidate —
search semantics: some split `u ++ v ++ w` of the candidate has `v` in the
pattern's language, with no implicit anchoring — and `score` is exactly
1 when `passed` and exactly 0 otherwise, never an intermediate value. -/
theorem C8_regex_search_semantics (resp : String) (ev : Evaluation)
    (p : RegularExpression Char) (hp : ev.regex_pattern = some p)
    (hne : isEpsilonPat p = false) :
    ∃ res : EvalResult,
      regex_match_evaluator resp ev = .ok res
        ∧ (res.passed = true ↔ ∃ u v w : List Char,
            resp.data = u ++ v ++ w ∧ v ∈ p.matches')
        ∧ res.score = (if res.passed = true then 1 else 0)
        ∧ (res.score = 0 ∨ res.score = 1) := by
  refine ⟨{ score := if research p resp.data then 1 else 0,
            passed := research p resp.data }, ?_, ?_, ?_, ?_⟩
  · simp [regex_match_evaluator, hp, hne]
  · simpa using research_iff p resp.data
  · rfl
  · cases hr : research p resp.data <;> simp [hr]

/-- C8 witness: the search-semantics theorem applied to the candidate
`"xa"` and the single-character pattern `a` (which matches in the middle of
the candidate, not at its start). -/
theorem C8_regex_search_semantics_witness :
    ∃ res : EvalResult,
      regex_match_evaluator "xa"
          { type := "regex_match", regex_pattern := some (.char 'a') } = .ok res
        ∧ (res.passed = true ↔ ∃ u v w : List Char,
            ("xa" : String).data = u ++ v ++ w
              ∧ v ∈ (RegularExpression.char 'a').matches')
        ∧ res.score = (if res.passed = true then 1 else 0)
        ∧ (res.score = 0 ∨ res.score = 1) :=
  C8_regex_search_semantics "xa"
    { type := "regex_match", regex_pattern := some (.char 'a') }
    (.char 'a') rfl rfl

/-- C4 counterexample: with one trial scored 1.0 and one trial whose score
is undefined (None) in the same category, the aggregator reports a mean of
1/2 — the sum of the defined scores divided by the TOTAL trial count — while
the arithmetic mean over the trials whose score is defined is 1. -/
theorem C4_counterexample :
    ∃ rep : Report,
      generate_html_report
          ([{ passed := true, score := some 1, execution_time_ms := 0,
              category := .vStr "c" },
            { passed := false, score := none, execution_time_ms := 0,
              category := .vStr "c" }].map RRow.toRow)
        = .ok rep
      ∧ rep.summary.average_score = 1/2
      ∧ (([{ passed := true, score := some 1, execution_time_ms := 0,
             category := .vStr "c" },
           { passed := false, score := none, execution_time_ms := 0,
             category := .vStr "c" }] : List RRow).filterMap
            fun r => r.score).sum
          / ((([{ passed := true, score := some 1, execution_time_ms := 0,
                  category := .vStr "c" },
                { passed := false, score := none, execution_time_ms := 0,
                  category := .vStr "c" }] : List RRow).filterMap
                fun r => r.score).length : ℚ) = 1
      ∧ (1/2 : ℚ) ≠ 1 := by
  refine ⟨pureReport _, generate_html_report_map _, ?_, ?_, ?_⟩
  · simp [pureReport]
  · simp
  · norm_num

/-- C4 (amended): in every summary the reported mean is the sum of the
DEFINED scores of that summary's own trials divided by that summary's TOTAL
trial count (`tests_run`), with 0 when `tests_run = 0`; this equals the
arithmetic mean over the defined-score trials exactly when every trial's
score is defined.  Per-category summaries use only that category's trials,
never trials across category boundaries. -/
theorem C4_amended_mean_denominator (l : List RRow) :
    ∃ rep : Report,
      generate_html_report (l.map RRow.toRow) = .ok rep
        ∧ rep.summary.average_score
            = (if 0 < l.length then
                ((l.filterMap fun r => r.score).sum) / (l.length : ℚ)
               else 0)
        ∧ (∀ c : PyVal,
            lookupG c rep.summary_by_category
              = if (l.filter fun r => r.category = c) = [] then none
                else some (pureCatSummary (l.filter fun r => r.category = c)))
        ∧ ((∀ r ∈ l, r.score ≠ none) → 0 < l.length →
            rep.summary.average_score
              = ((l.filterMap fun r => r.score).sum)
                  / ((l.filterMap fun r => r.score).length : ℚ)) := by
  refine ⟨pureReport l, generate_html_report_map l, rfl, ?_, ?_⟩
  · intro c
    exact lookupG_pureReport c l
  · intro hall hlen
    have hfl := filterMap_score_length l hall
    simp [pureReport, hlen, hfl]

/-- C4 witness: the amended theorem applied to a singleton list whose only
trial has a defined score, where the reported mean coincides with the mean
over defined scores. -/
theorem C4_amended_mean_denominator_witness :
    ∃ rep : Report,
      generate_html_report
          ([{ passed := true, score := some 2, execution_time_ms := 5,
              category := .vStr "m" }].map RRow.toRow)
        = .ok rep
        ∧ rep.summary.average_score
            = (([{ passed := true, score := some 2, execution_time_ms := 5,
                   category := .vStr "m" }] : List RRow).filterMap
                  fun r => r.score).sum
                / ((([{ passed := true, score := some 2, execution_time_ms := 5,
                        category := .vStr "m" }] : List RRow).filterMap
                      fun r => r.score).length : ℚ) := by
  obtain ⟨rep, h1, _, _, h4⟩ := C4_amended_mean_denominator
    [{ passed := true, score := some 2, execution_time_ms := 5,
       category := .vStr "m" }]
  exact ⟨rep, h1, h4 (by decide) (by decide)⟩

/-- C9: for every input row sequence the aggregator succeeds, and
`passed + failed = tests_run` holds in the overall summary and in every
per-category summary; the empty sequence yields a zeroed overall summary
(mean 0) and an empty category mapping, with no error. -/
theorem C9_aggregator_count_invariant (l : List RRow) :
    ∃ rep : Report,
      generate_html_report (l.map RRow.toRow) = .ok rep
        ∧ rep.summary.passed + rep.summary.failed = rep.summary.total_tests
        ∧ (∀ pr ∈ rep.summary_by_category,
            pr.2.passed + pr.2.failed = pr.2.tests_run)
        ∧ (l = [] →
            rep = { summary := { total_tests := 0, passed := 0, failed := 0,
                                 average_score := 0, execution_time := 0 },
                    summary_by_category := [] }) := by
  refine ⟨pureReport l, generate_html_report_map l, ?_, ?_, ?_⟩
  · have hle := List.countP_le_length (fun r => r.passed) (l := l)
    show l.countP (fun r => r.passed)
        + (l.length - l.countP fun r => r.passed) = l.length
    omega
  · intro pr hpr
    obtain ⟨g, _, rfl⟩ := List.mem_map.mp hpr
    have hle := List.countP_le_length (fun r => r.passed) (l := g.2)
    show (pureCatSummary g.2).passed + (pureCatSummary g.2).failed
        = (pureCatSummary g.2).tests_run
    simp only [pureCatSummary]
    omega
  · intro h
    subst h
    simp [pureReport, groupsOf]

/-- C9 witness: the count invariant at a concrete two-row input with one
category, and at the empty input. -/
theorem C9_aggregator_count_invariant_witness :
    (∃ rep : Report,
        generate_html_report
            ([{ passed := true, score := some 1, execution_time_ms := 1,
                category := .vStr "m" },
              { passed := false, score := some 0, execution_time_ms := 1,
                category := .vStr "m" }].map RRow.toRow)
          = .ok rep
          ∧ rep.summary.passed + rep.summary.failed = rep.summary.total_tests)
      ∧ (∃ rep : Report,
          generate_html_report (([] : List RRow).map RRow.toRow) = .ok rep
            ∧ rep = { summary := { total_tests := 0, passed := 0, failed := 0,
                                   average_score := 0, execution_time := 0 },
                      summary_by_category := [] }) := by
  constructor
  · obtain ⟨rep, h1, h2, _, _⟩ := C9_aggregator_count_invariant
      [{ passed := true, score := some 1, execution_time_ms := 1,
         category := .vStr "m" },
       { passed := false, score := some 0, execution_time_ms := 1,
         category := .vStr "m" }]
    exact ⟨rep, h1, h2⟩
  · obtain ⟨rep, h1, _, _, h4⟩ := C9_aggregator_count_invariant ([] : List RRow)
    exact ⟨rep, h1, h4 rfl⟩

/-- C10 counterexample: the program's summaries are NOT identical under
every permutation, because `reporters.py` sums float scores by a left fold
of IEEE binary64 addition, which is not associative.  Four trials in one
category carry the score doubles 0.1, 0.2, 0.3, 0.0; reversing the first
three is a permutation, yet the source's `sum(...)` yields the double
0.6000000000000001 (significand 5404319552844596 at 2^-53) in one order
and 0.6 (significand 5404319552844595 at 2^-53) in the other, so that
category's `score` field — `sum(...) / 4`, an exact exponent shift —
differs between the two summaries. -/
theorem C10_counterexample :
    ([f01, f02, f03, f00] : List (ℕ × ℤ)).Perm [f03, f02, f01, f00]
      ∧ pySumFloat [f01, f02, f03, f00] = (5404319552844596, -53)
      ∧ pySumFloat [f03, f02, f01, f00] = (5404319552844595, -53)
      ∧ fdiv4 (pySumFloat [f01, f02, f03, f00])
          ≠ fdiv4 (pySumFloat [f03, f02, f01, f00]) := by
  refine ⟨by decide, by decide, by decide, by decide⟩

/-- C10 (amended): aggregation is order-independent up to floating-point
rounding — permuting the input rows yields an identical overall summary
and per-category summaries that agree at every key under the exact
(rational) model of the source's float arithmetic; the grouping, the
`tests_run` and the passed/failed counts in particular are exactly
order-independent.  (At raw IEEE binary64 semantics the folded sums can
differ in the last bits under permutation — see the counterexample.) -/
theorem C10_aggregation_order_independent (l1 l2 : List RRow)
    (h : l1.Perm l2) :
    ∃ r1 r2 : Report,
      generate_html_report (l1.map RRow.toRow) = .ok r1
        ∧ generate_html_report (l2.map RRow.toRow) = .ok r2
        ∧ r1.summary = r2.summary
        ∧ ∀ c : PyVal,
            lookupG c r1.summary_by_category = lookupG c r2.summary_by_category :=
  ⟨pureReport l1, pureReport l2, generate_html_report_map l1,
    generate_html_report_map l2, pureReport_summary_perm h,
    fun c => pureReport_lookup_perm h c⟩

/-- C10 witness: order independence applied to a concrete two-row list and
its reversal (rows in different categories). -/
theorem C10_aggregation_order_independent_witness :
    ∃ r1 r2 : Report,
      generate_html_report
          ([{ passed := true, score := some 1, execution_time_ms := 1,
              category := .vStr "math" },
            { passed := false, score := none, execution_time_ms := 2,
              category := .vStr "lang" }].map RRow.toRow)
        = .ok r1
        ∧ generate_html_report
            ([{ passed := false, score := none, execution_time_ms := 2,
                category := .vStr "lang" },
              { passed := true, score := some 1, execution_time_ms := 1,
                category := .vStr "math" }].map RRow.toRow)
          = .ok r2
        ∧ r1.summary = r2.summary
        ∧ ∀ c : PyVal,
            lookupG c r1.summary_by_category = lookupG c r2.summary_by_category :=
  C10_aggregation_order_independent
    [{ passed := true, score := some 1, execution_time_ms := 1,
       category := .vStr "math" },
     { passed := false, score := none, execution_time_ms := 2,
       category := .vStr "lang" }]
    [{ passed := false, score := none, execution_time_ms := 2,
       category := .vStr "lang" },
     { passed := true, score := some 1, execution_time_ms := 1,
       category := .vStr "math" }]
    (List.Perm.swap _ _ _)

end DecipherBench
